import Mathlib

/-!
Shallow embedding of the schema-registry client core
(file src/schema_registry.rs) and proofs of the specified properties.

Bytes are modelled as natural numbers below 256, byte sequences as
List Nat. Machine integers (u32, u64, i64) are modelled as Nat or Int
with explicit reductions modulo powers of two where the Rust code
truncates. External library calls (curl transfers, UTF-8 decoding,
serde_json parsing and rendering) are modelled as explicit functional
parameters bundled in the Ext structure; HTTP POST traffic is modelled
with an explicit world state that records the request log, so that
ordering properties of the recursive registration can be stated.
-/

namespace SchemaRegistry

/-- SchemaType from src/schema_registry.rs lines 16-22. -/
inductive SchemaType where
  | Avro
  | Protobuf
  | Json
  | Other (s : String)
deriving DecidableEq, Repr

/-- SuppliedReference from src/schema_registry.rs lines 25-31: a sub schema
to be registered, possibly with nested references (a tree). -/
inductive SuppliedReference where
  | mk (name : String) (subject : String) (schema : String)
      (references : List SuppliedReference)
deriving Repr

/-- Projection for the name field of SuppliedReference. -/
def SuppliedReference.name : SuppliedReference → String
  | .mk n _ _ _ => n

/-- Projection for the subject field of SuppliedReference. -/
def SuppliedReference.subject : SuppliedReference → String
  | .mk _ s _ _ => s

/-- Projection for the schema field of SuppliedReference. -/
def SuppliedReference.schema : SuppliedReference → String
  | .mk _ _ s _ => s

/-- Projection for the references field of SuppliedReference. -/
def SuppliedReference.references : SuppliedReference → List SuppliedReference
  | .mk _ _ _ rs => rs

/-- The references field of a SuppliedReference is smaller than the
reference itself, justifying the recursion of the registration functions. -/
theorem SuppliedReference.sizeOf_references_lt (r : SuppliedReference) :
    sizeOf r.references < sizeOf r := by
  cases r with
  | mk n s sch rs =>
      simp only [SuppliedReference.references, SuppliedReference.mk.sizeOf_spec]
      omega

/-- SuppliedSchema from src/schema_registry.rs lines 35-41. -/
structure SuppliedSchema where
  name : Option String
  schema_type : SchemaType
  schema : String
  references : List SuppliedReference
deriving Repr

/-- RegisteredReference from src/schema_registry.rs lines 43-48.
The version field is a u32, modelled as Nat. -/
structure RegisteredReference where
  name : String
  subject : String
  version : Nat
deriving DecidableEq, Repr

/-- RegisteredSchema from src/schema_registry.rs lines 52-58.
The id field is a u32, modelled as Nat. -/
structure RegisteredSchema where
  id : Nat
  schema_type : SchemaType
  schema : String
  references : List RegisteredReference
deriving DecidableEq, Repr

/-- BytesResult from src/schema_registry.rs lines 62-67. -/
inductive BytesResult where
  | Null
  | Invalid (bytes : List Nat)
  | Valid (id : Nat) (payload : List Nat)
deriving DecidableEq, Repr

/-- SubjectNameStrategy from src/schema_registry.rs lines 77-85. -/
inductive SubjectNameStrategy where
  | RecordNameStrategy (rn : String)
  | TopicNameStrategy (topic : String) (is_key : Bool)
  | TopicRecordNameStrategy (topic : String) (rn : String)
  | RecordNameStrategyWithSchema (s : SuppliedSchema)
  | TopicNameStrategyWithSchema (topic : String) (is_key : Bool) (s : SuppliedSchema)
  | TopicRecordNameStrategyWithSchema (topic : String) (s : SuppliedSchema)
deriving Repr

/-- SRCError from src/schema_registry.rs lines 473-479. -/
structure SRCError where
  error : String
  cause : Option String
  retriable : Bool
  cached : Bool
deriving DecidableEq, Repr

/-- SRCError constructor new, src/schema_registry.rs lines 518-525:
cached always starts out false. -/
def SRCError.new (error : String) (cause : Option String) (retriable : Bool) : SRCError :=
  { error := error, cause := cause, retriable := retriable, cached := false }

/-- SRCError constructor retryable_with_cause, lines 526-528. The Display
rendering of the cause is modelled as the cause string itself. -/
def SRCError.retryable_with_cause (cause : String) (error : String) : SRCError :=
  SRCError.new error (some cause) true

/-- SRCError constructor non_retryable_with_cause, lines 529-531. -/
def SRCError.non_retryable_with_cause (cause : String) (error : String) : SRCError :=
  SRCError.new error (some cause) false

/-- SRCError constructor non_retryable_without_cause, lines 532-534. -/
def SRCError.non_retryable_without_cause (error : String) : SRCError :=
  SRCError.new error none false

/-- SRCError.into_cache, lines 536-543: copies every field and sets cached. -/
def SRCError.into_cache (e : SRCError) : SRCError :=
  { error := e.error, cause := e.cause, retriable := e.retriable, cached := true }

/-- Clone for SRCError, lines 482-495: field-by-field copy (String::from on a
deref of a String is the identity on the modelled string value). -/
def SRCError.clone (e : SRCError) : SRCError :=
  { error := e.error
    cause := match e.cause with
      | some v => some v
      | none => none
    retriable := e.retriable
    cached := e.cached }

/-- Display for SRCError, src/schema_registry.rs lines 498-513, used when an
SRCError becomes the cause of another error in post_schema and post_reference. -/
def SRCError.display (e : SRCError) : String :=
  match e.cause with
  | some cause =>
      "Error: " ++ e.error ++ ", was cause by " ++ cause ++
        ", it\x27s retriable: " ++ toString e.retriable ++
        ", it\x27s cached: " ++ toString e.cached
  | none =>
      "Error: " ++ e.error ++ " had no other cause, it\x27s retriable: " ++
        toString e.retriable ++ ", it\x27s cached: " ++ toString e.cached

/-! Wire codec: get_bytes_result and get_payload. -/

/-- Big-endian read of a byte list, modelling read_u32 with BigEndian byte
order applied to the 4-byte slice p[1..5] in get_bytes_result. -/
def read_be (l : List Nat) : Nat :=
  l.foldl (fun acc b => acc * 256 + b) 0

/-- Big-endian byte encoding of a 32-bit id, modelling
BigEndian::write_u32 in get_payload (the Rust argument is a u32, so the
value is reduced modulo 2 to the 32). -/
def write_u32_be (id : Nat) : List Nat :=
  [id % 2 ^ 32 / 2 ^ 24, id % 2 ^ 24 / 2 ^ 16, id % 2 ^ 16 / 2 ^ 8, id % 2 ^ 8]

/-- get_bytes_result from src/schema_registry.rs lines 91-101: None gives
Null; a byte sequence of length at least 5 starting with a zero byte gives
Valid with the big-endian id from bytes 1..5 and the rest as payload; any
other byte sequence gives Invalid carrying the whole input. -/
def get_bytes_result (bytes : Option (List Nat)) : BytesResult :=
  match bytes with
  | none => BytesResult.Null
  | some p =>
      if 4 < p.length ∧ p.headD 0 = 0 then
        BytesResult.Valid (read_be ((p.drop 1).take 4)) (p.drop 5)
      else
        BytesResult.Invalid p

/-- get_payload from src/schema_registry.rs lines 104-111: a zero byte,
then the big-endian 32-bit id, then the encoded bytes. -/
def get_payload (id : Nat) (encoded_bytes : List Nat) : List Nat :=
  0 :: (write_u32_be id ++ encoded_bytes)

/-! Subject resolution: get_subject and get_schema. -/

/-- get_schema from src/schema_registry.rs lines 166-175: the inline schema
of the strategy, when it carries one. -/
def get_schema (subject_name_strategy : SubjectNameStrategy) : Option SuppliedSchema :=
  match subject_name_strategy with
  | .RecordNameStrategy _ => none
  | .TopicNameStrategy _ _ => none
  | .TopicRecordNameStrategy _ _ => none
  | .RecordNameStrategyWithSchema s => some s
  | .TopicNameStrategyWithSchema _ _ s => some s
  | .TopicRecordNameStrategyWithSchema _ s => some s

/-- get_subject from src/schema_registry.rs lines 179-210: derives the
registry subject from the naming strategy. -/
def get_subject (subject_name_strategy : SubjectNameStrategy) : Except SRCError String :=
  match subject_name_strategy with
  | .RecordNameStrategy rn => Except.ok rn
  | .TopicNameStrategy t is_key =>
      if is_key then Except.ok (t ++ "-key") else Except.ok (t ++ "-value")
  | .TopicRecordNameStrategy t rn => Except.ok (t ++ "-" ++ rn)
  | .RecordNameStrategyWithSchema s =>
      match s.name with
      | none => Except.error (SRCError.non_retryable_without_cause
          "name is mandatory in SuppliedSchema when used in TopicRecordNameStrategyWithSchema")
      | some n => Except.ok n
  | .TopicNameStrategyWithSchema t is_key _ =>
      if is_key then Except.ok (t ++ "-key") else Except.ok (t ++ "-value")
  | .TopicRecordNameStrategyWithSchema t s =>
      match s.name with
      | none => Except.error (SRCError.non_retryable_without_cause
          "name is mandatory in SuppliedSchema when used in TopicRecordNameStrategyWithSchema")
      | some n => Except.ok (t ++ "-" ++ n)

/-! Model of serde_json values and the accessors the source uses. Numbers
are modelled as integers; floating point JSON numbers are outside the
scope of the properties treated here. -/

/-- Model of serde_json Value restricted to what the source consumes. -/
inductive Json where
  | null
  | bool (b : Bool)
  | num (n : Int)
  | str (s : String)
  | arr (xs : List Json)
  | obj (fields : List (String × Json))
deriving Repr

/-- Model of serde_json Value indexing with a string key: a present key of
an object gives its value, anything else gives null. Objects have unique
keys (serde_json maps), so first match is the match. -/
def Json.index (j : Json) (key : String) : Json :=
  match j with
  | .obj fields =>
      match fields.find? (fun kv => kv.1 == key) with
      | some kv => kv.2
      | none => .null
  | _ => .null

/-- Model of Value::as_str. -/
def Json.as_str (j : Json) : Option String :=
  match j with
  | .str s => some s
  | _ => none

/-- Model of Value::as_u64: a number in the u64 range. -/
def Json.as_u64 (j : Json) : Option Nat :=
  match j with
  | .num n => if 0 ≤ n ∧ n < 2 ^ 64 then some n.toNat else none
  | _ => none

/-- Model of Value::as_i64: a number in the i64 range. -/
def Json.as_i64 (j : Json) : Option Int :=
  match j with
  | .num n => if -(2 ^ 63) ≤ n ∧ n < 2 ^ 63 then some n else none
  | _ => none

/-- Model of Value::as_array. -/
def Json.as_array (j : Json) : Option (List Json) :=
  match j with
  | .arr xs => some xs
  | _ => none

/-- Truncating cast of an i64 value to u32, modelling the Rust expression
v as u32 on an i64 (low 32 bits in two\x27s complement). -/
def i64_as_u32 (v : Int) : Nat :=
  (v % 2 ^ 32).toNat

/-- Model of a curl Easy2 handle after a transfer: the response code query
(which itself can fail with a curl error, modelled as the error string) and
the bytes collected by the Collector handler. -/
structure Easy2 where
  response_code : Except String Nat
  data : List Nat

/-- External library and transport functions the source calls but does not
implement: str::from_utf8, serde_json::from_str, serde_json Value
rendering (to_string), and the GET transfer of perform_get. Each is an
arbitrary function parameter of the model. -/
structure Ext where
  utf8 : List Nat → Except String String
  parseJson : String → Except String Json
  render : Json → String
  performGet : String → Except String Easy2

/-- to_json from src/schema_registry.rs lines 425-458: a response code other
than 200 is a non retryable error naming the code; a failure to obtain the
response code is a retryable error; then the collected body must decode as
UTF-8 and parse as JSON, each failure being non retryable. -/
def to_json (ext : Ext) (easy : Easy2) : Except SRCError Json :=
  match easy.response_code with
  | .ok v =>
      if v = 200 then
        match ext.utf8 easy.data with
        | .error e => .error (SRCError.non_retryable_with_cause e "Invalid UTF-8 sequence")
        | .ok body =>
            match ext.parseJson body with
            | .ok j => .ok j
            | .error e => .error (SRCError.non_retryable_with_cause e "Invalid json string")
      else
        .error (SRCError.non_retryable_without_cause
          ("Did not get a 200 response code but " ++ toString v ++ " instead"))
  | .error e =>
      .error (SRCError.retryable_with_cause e "Encountered error getting http response")

/-- to_registered_reference from src/schema_registry.rs lines 212-214:
serde deserialization of a Value into a RegisteredReference. The derived
deserializer needs an object with string fields name and subject and a
number field version in u32 range; unknown fields are ignored. Error
messages of serde are abstracted to fixed strings. -/
def to_registered_reference (reference : Json) : Except String RegisteredReference :=
  match reference with
  | .obj _ =>
      match (reference.index "name").as_str, (reference.index "subject").as_str,
          (reference.index "version") with
      | some n, some s, .num v =>
          if 0 ≤ v ∧ v < 2 ^ 32 then
            .ok { name := n, subject := s, version := v.toNat }
          else
            .error "invalid value for field version"
      | _, _, _ => .error "missing or invalid field"
  | _ => .error "expected an object"

/-- Short-circuiting collect of a list of fallible results, modelling
collect from an iterator of Result into Result of Vec. -/
def collect_results {α β : Type} : List (Except α β) → Except α (List β)
  | [] => .ok []
  | x :: xs =>
      match x with
      | .error e => .error e
      | .ok v =>
          match collect_results xs with
          | .error e => .error e
          | .ok vs => .ok (v :: vs)

/-- Mapping of the schemaType envelope field, src/schema_registry.rs lines
239-245: the three known tags map to their SchemaType, any other string is
Other, an absent (or non string) field defaults to Avro. -/
def parse_schema_type (json : Json) : SchemaType :=
  match (json.index "schemaType").as_str with
  | some "AVRO" => SchemaType.Avro
  | some "PROTOBUF" => SchemaType.Protobuf
  | some "JSON" => SchemaType.Json
  | some s => SchemaType.Other s
  | none => SchemaType.Avro

/-- Envelope parsing part of schema_from_url, src/schema_registry.rs lines
229-271: resolve the id (the supplied one when present, the one in the
response otherwise), map schemaType with Avro as default, require the
schema field, and decode the optional references array. -/
def schema_from_json (json : Json) (id : Option Nat) : Except SRCError RegisteredSchema :=
  match (match id with
         | some v => Except.ok v
         | none =>
             match (json.index "id").as_u64 with
             | some v => Except.ok (v % 2 ^ 32)
             | none => Except.error (SRCError.new "Could not get id from response" none false)) with
  | .error e => .error e
  | .ok theId =>
      let schema_type : SchemaType := parse_schema_type json
      match (json.index "schema").as_str with
      | none => .error (SRCError.non_retryable_without_cause
          "Could not get raw schema from response")
      | some schema =>
          match (json.index "references").as_array with
          | none =>
              .ok { id := theId, schema_type := schema_type, schema := schema, references := [] }
          | some v =>
              match collect_results (v.map to_registered_reference) with
              | .ok refs =>
                  .ok { id := theId, schema_type := schema_type, schema := schema,
                        references := refs }
              | .error e =>
                  .error (SRCError.non_retryable_with_cause e "Error parsing reference")

/-- schema_from_url from src/schema_registry.rs lines 218-272: perform the
GET (a transfer failure is retryable), turn the response into JSON with
to_json, then parse the envelope (schema_from_json above). -/
def schema_from_url (ext : Ext) (url : String) (id : Option Nat) :
    Except SRCError RegisteredSchema :=
  match ext.performGet url with
  | .error e =>
      .error (SRCError.retryable_with_cause e "error performing get to schema registry")
  | .ok easy =>
      match to_json ext easy with
      | .error e => .error e
      | .ok json => schema_from_json json id

/-- get_schema_by_id from src/schema_registry.rs lines 115-118: builds the
schemas-by-id URL and calls schema_from_url with the requested id supplied. -/
def get_schema_by_id (ext : Ext) (id : Nat) (schema_registry_url : String) :
    Except SRCError RegisteredSchema :=
  let url := schema_registry_url ++ "/schemas/ids/" ++ toString id
  schema_from_url ext url (some id)

/-! Model of the POST side. The transport world carries an oracle deciding
the outcome of each POST (it may depend on the requests issued so far) and
a log of the requests issued, in order, so that ordering properties of the
recursive registration can be stated. -/

/-- Transport world for POST requests: the oracle models the network, the
log records every request issued as a pair of url and body. -/
structure World where
  oracle : List (String × String) → String → String → Except String Easy2
  log : List (String × String)

/-- perform_post from src/schema_registry.rs lines 411-422: issue the POST
(outcome decided by the oracle) and record the request in the log. -/
def perform_post (w : World) (url : String) (body : String) :
    Except String Easy2 × World :=
  (w.oracle w.log url body, { w with log := w.log ++ [(url, body)] })

/-- post_and_get_id from src/schema_registry.rs lines 329-346: POST, a
transfer failure being retryable, then read the id field of the JSON
response as an i64 cast to u32; a missing id is non retryable. -/
def post_and_get_id (ext : Ext) (w : World) (url : String) (body : String) :
    Except SRCError Nat × World :=
  match perform_post w url body with
  | (.error e, w) =>
      (.error (SRCError.retryable_with_cause e
        "error performing post to schema registry to get id"), w)
  | (.ok easy, w) =>
      match to_json ext easy with
      | .error e => (.error e, w)
      | .ok json =>
          match (json.index "id").as_i64 with
          | some v => (.ok (i64_as_u32 v), w)
          | none =>
              (.error (SRCError.non_retryable_without_cause
                "Could not get id from response"), w)

/-- post_and_get_version from src/schema_registry.rs lines 348-365: same as
post_and_get_id but reading the version field. -/
def post_and_get_version (ext : Ext) (w : World) (url : String) (body : String) :
    Except SRCError Nat × World :=
  match perform_post w url body with
  | (.error e, w) =>
      (.error (SRCError.retryable_with_cause e
        "error performing post to schema registry to get version"), w)
  | (.ok easy, w) =>
      match to_json ext easy with
      | .error e => (.error e, w)
      | .ok json =>
          match (json.index "version").as_i64 with
          | some v => (.ok (i64_as_u32 v), w)
          | none =>
              (.error (SRCError.non_retryable_without_cause
                "Could not get version from response"), w)

/-- Serde serialization of a RegisteredReference, as produced by the json
macro in get_body. -/
def registered_reference_json (r : RegisteredReference) : Json :=
  Json.obj
    [("name", Json.str r.name), ("subject", Json.str r.subject),
     ("version", Json.num r.version)]

/-- get_body from src/schema_registry.rs lines 314-327: a JSON object with
the schema and schemaType fields and, only when nonempty, the references
array, rendered to a string (rendering is the external serde_json
to_string, so it is taken from Ext). -/
def get_body (ext : Ext) (schema_type : String) (schema : String)
    (references : List RegisteredReference) : String :=
  ext.render (Json.obj
    ([("schema", Json.str schema), ("schemaType", Json.str schema_type)] ++
      (if references.isEmpty then []
       else [("references", Json.arr (references.map registered_reference_json))])))

mutual

/-- post_reference from src/schema_registry.rs lines 367-399: first
register every nested reference recursively (short-circuiting at the first
failure, which is wrapped as a non retryable error whose cause is the
rendering of the inner error), then POST the body to the versions URL of
the subject for the id, then POST the same body to the bare subject URL for
the version, and only then build the RegisteredReference. -/
def post_reference (ext : Ext) (schema_registry_url : String) (schema_type : String)
    (reference : SuppliedReference) (w : World) :
    Except SRCError RegisteredReference × World :=
  match post_reference_list ext schema_registry_url schema_type reference.references w with
  | (.error e, w) =>
      (.error (SRCError.non_retryable_with_cause e.display "Error posting a reference"), w)
  | (.ok references, w) =>
      let url := schema_registry_url ++ "/subjects/" ++ reference.subject ++ "/versions"
      let body := get_body ext schema_type reference.schema references
      match post_and_get_id ext w url body with
      | (.error e, w) => (.error e, w)
      | (.ok _, w) =>
          let version_url := schema_registry_url ++ "/subjects/" ++ reference.subject
          match post_and_get_version ext w version_url body with
          | (.error e, w) => (.error e, w)
          | (.ok version, w) =>
              (.ok { name := reference.name, subject := reference.subject,
                     version := version }, w)
termination_by sizeOf reference
decreasing_by
  exact SuppliedReference.sizeOf_references_lt reference

/-- Registration of a list of references in order, modelling the
short-circuiting collect over the mapped post_reference calls in
post_schema and post_reference. -/
def post_reference_list (ext : Ext) (schema_registry_url : String) (schema_type : String)
    (references : List SuppliedReference) (w : World) :
    Except SRCError (List RegisteredReference) × World :=
  match references with
  | [] => (.ok [], w)
  | r :: rest =>
      match post_reference ext schema_registry_url schema_type r w with
      | (.error e, w) => (.error e, w)
      | (.ok rr, w) =>
          match post_reference_list ext schema_registry_url schema_type rest w with
          | (.error e, w) => (.error e, w)
          | (.ok rrs, w) => (.ok (rr :: rrs), w)
termination_by sizeOf references
decreasing_by
  all_goals simp only [List.cons.sizeOf_spec]
  all_goals omega

end

/-- post_schema from src/schema_registry.rs lines 278-312: render the
schema type tag, register all references first (short-circuiting, wrapping
a failure like post_reference does), then POST the body to the versions URL
of the subject and read back the id; the result echoes the supplied schema
type and text together with the resolved references. -/
def post_schema (ext : Ext) (schema_registry_url : String) (subject : String)
    (schema : SuppliedSchema) (w : World) :
    Except SRCError RegisteredSchema × World :=
  let schema_type : String :=
    match schema.schema_type with
    | .Avro => "AVRO"
    | .Protobuf => "PROTOBUF"
    | .Json => "JSON"
    | .Other v => v
  match post_reference_list ext schema_registry_url schema_type schema.references w with
  | (.error e, w) =>
      (.error (SRCError.non_retryable_with_cause e.display "Error posting a reference"), w)
  | (.ok references, w) =>
      let url := schema_registry_url ++ "/subjects/" ++ subject ++ "/versions"
      let body := get_body ext schema_type schema.schema references
      match post_and_get_id ext w url body with
      | (.error e, w) => (.error e, w)
      | (.ok id, w) =>
          (.ok { id := id, schema_type := schema.schema_type, schema := schema.schema,
                 references := references }, w)

mutual

/-- Specification-side description of the URLs a successful registration of
one reference must hit, in order: first the URLs of its nested references
(post-order), then the versions URL of its own subject, then the bare
subject URL. -/
def postOrderUrls (base : String) (r : SuppliedReference) : List String :=
  postOrderUrlsList base r.references ++
    [base ++ "/subjects/" ++ r.subject ++ "/versions", base ++ "/subjects/" ++ r.subject]
termination_by sizeOf r
decreasing_by
  exact SuppliedReference.sizeOf_references_lt r

/-- Specification-side URL sequence for a list of references, in order. -/
def postOrderUrlsList (base : String) (rs : List SuppliedReference) : List String :=
  match rs with
  | [] => []
  | r :: rest => postOrderUrls base r ++ postOrderUrlsList base rest
termination_by sizeOf rs
decreasing_by
  all_goals simp only [List.cons.sizeOf_spec]
  all_goals omega

end

/-! Theorems for the claims. -/

/-- C1: wire codec round trip. For every 32-bit id and every payload byte
sequence, including the empty one, decoding the bytes produced by
get_payload with get_bytes_result yields Valid with the same id and
payload. -/
theorem C1_wire_roundtrip (id : Nat) (payload : List Nat) (h : id < 2 ^ 32) :
    get_bytes_result (some (get_payload id payload)) = BytesResult.Valid id payload := by
  unfold get_payload write_u32_be
  simp only [get_bytes_result, List.cons_append]
  rw [if_pos]
  · simp only [List.drop_succ_cons, List.drop_zero, List.take_succ_cons,
      List.take_zero, read_be, List.foldl_cons, List.foldl_nil, BytesResult.Valid.injEq]
    refine ⟨?_, rfl⟩
    omega
  · refine ⟨?_, rfl⟩
    simp only [List.length_cons, List.length_append]
    omega

/-- Witness for C1 at id 7 with the empty payload. -/
theorem C1_wire_roundtrip_witness :
    7 < 2 ^ 32 ∧ get_bytes_result (some (get_payload 7 [])) = BytesResult.Valid 7 [] :=
  ⟨by decide, C1_wire_roundtrip 7 [] (by decide)⟩

/-- C2 counterexample: the claim says a 5-byte leading-zero input (a header
with no payload) is Invalid, but get_bytes_result requires only that the
length exceed 4, so the input 0,0,0,0,1 decodes as Valid with id 1 and an
empty payload. -/
theorem C2_counterexample :
    get_bytes_result (some [0, 0, 0, 0, 1]) = BytesResult.Valid 1 [] ∧
      get_bytes_result (some [0, 0, 0, 0, 1]) ≠ BytesResult.Invalid [0, 0, 0, 0, 1] := by
  constructor <;> decide

/-- C2 amended: get_bytes_result is a total three-way case split: Null for
absent input; Valid with the big-endian id from bytes 1..5 and the
remaining (possibly empty) bytes as payload for a present input whose
first byte is zero and whose length exceeds 4; Invalid with the full
original bytes for every other present input, in particular any
leading-zero input of length 4 or fewer. -/
theorem C2_decode_cases (bytes : Option (List Nat)) :
    (bytes = none → get_bytes_result bytes = BytesResult.Null) ∧
    (∀ p, bytes = some p → 4 < p.length → p.headD 0 = 0 →
      get_bytes_result bytes =
        BytesResult.Valid
          (p.getD 1 0 * 2 ^ 24 + p.getD 2 0 * 2 ^ 16 + p.getD 3 0 * 2 ^ 8 + p.getD 4 0)
          (p.drop 5)) ∧
    (∀ p, bytes = some p → (p.length ≤ 4 ∨ p.headD 0 ≠ 0) →
      get_bytes_result bytes = BytesResult.Invalid p) := by
  refine ⟨fun h => by rw [h]; rfl, fun p hp h1 h2 => ?_, fun p hp h => ?_⟩
  · subst hp
    match p, h1 with
    | a :: b :: c :: d :: e :: rest, _ =>
        simp only [List.headD_cons] at h2
        subst h2
        simp only [get_bytes_result]
        rw [if_pos ⟨by simp only [List.length_cons]; omega, rfl⟩]
        simp only [List.drop_succ_cons, List.drop_zero, List.take_succ_cons,
          List.take_zero, read_be, List.foldl_cons, List.foldl_nil,
          List.getD_cons_succ, List.getD_cons_zero, BytesResult.Valid.injEq]
        refine ⟨?_, trivial⟩
        ring
  · subst hp
    simp only [get_bytes_result]
    rw [if_neg]
    rintro ⟨hlen, hhead⟩
    rcases h with h | h
    · omega
    · exact h hhead

/-- Witness for the amended C2 on the Valid branch at a 6-byte input. -/
theorem C2_decode_cases_witness :
    4 < [0, 0, 0, 1, 2, 3].length ∧
      get_bytes_result (some [0, 0, 0, 1, 2, 3]) = BytesResult.Valid 258 [3] := by
  refine ⟨by decide, ?_⟩
  have h := (C2_decode_cases (some [0, 0, 0, 1, 2, 3])).2.1 [0, 0, 0, 1, 2, 3]
    rfl (by decide) (by decide)
  simpa using h

/-- C6: subject derivation is pure and total on the bare strategies and the
WithSchema variants use the same rules, the topic-record one taking the
record name from the inline schema. -/
theorem C6_get_subject_spec (name topic rn n : String) (s : SuppliedSchema) :
    get_subject (.RecordNameStrategy name) = .ok name ∧
    get_subject (.TopicNameStrategy topic true) = .ok (topic ++ "-key") ∧
    get_subject (.TopicNameStrategy topic false) = .ok (topic ++ "-value") ∧
    get_subject (.TopicRecordNameStrategy topic rn) = .ok (topic ++ "-" ++ rn) ∧
    get_subject (.TopicNameStrategyWithSchema topic true s) = .ok (topic ++ "-key") ∧
    get_subject (.TopicNameStrategyWithSchema topic false s) = .ok (topic ++ "-value") ∧
    (s.name = some n →
      get_subject (.TopicRecordNameStrategyWithSchema topic s) = .ok (topic ++ "-" ++ n)) := by
  refine ⟨rfl, rfl, rfl, rfl, rfl, rfl, fun h => ?_⟩
  simp [get_subject, h]

/-- Witness for C6 on the schema-carrying topic-record branch, matching
the examples of the specification. -/
theorem C6_get_subject_spec_witness :
    (⟨some "Order", SchemaType.Avro, "", []⟩ : SuppliedSchema).name = some "Order" ∧
      get_subject (.TopicRecordNameStrategyWithSchema "orders"
        ⟨some "Order", SchemaType.Avro, "", []⟩) = .ok "orders-Order" := by
  refine ⟨rfl, ?_⟩
  have h := (C6_get_subject_spec "x" "orders" "y" "Order"
    ⟨some "Order", SchemaType.Avro, "", []⟩).2.2.2.2.2.2 rfl
  simpa using h

/-- C7: a TopicRecordNameStrategyWithSchema strategy whose inline schema
has no name makes get_subject fail with exactly the fixed message, no
cause, retriable false and cached false. -/
theorem C7_name_mandatory (t : String) (s : SuppliedSchema) (h : s.name = none) :
    get_subject (.TopicRecordNameStrategyWithSchema t s) =
      .error { error := "name is mandatory in SuppliedSchema when used in TopicRecordNameStrategyWithSchema",
               cause := none, retriable := false, cached := false } := by
  simp [get_subject, h, SRCError.non_retryable_without_cause, SRCError.new]

/-- Witness for C7 at a concrete schema without a name. -/
theorem C7_name_mandatory_witness :
    (⟨none, SchemaType.Other "foo", "", []⟩ : SuppliedSchema).name = none ∧
      get_subject (.TopicRecordNameStrategyWithSchema "someTopic"
        ⟨none, SchemaType.Other "foo", "", []⟩) =
        .error { error := "name is mandatory in SuppliedSchema when used in TopicRecordNameStrategyWithSchema",
                 cause := none, retriable := false, cached := false } :=
  ⟨rfl, C7_name_mandatory "someTopic" ⟨none, SchemaType.Other "foo", "", []⟩ rfl⟩

/-- C10: the RecordNameStrategyWithSchema variant without a schema name
fails with a non retryable error carrying the very message that names the
TopicRecordNameStrategyWithSchema variant. -/
theorem C10_record_name_reuses_message (s : SuppliedSchema) (h : s.name = none) :
    get_subject (.RecordNameStrategyWithSchema s) =
      .error { error := "name is mandatory in SuppliedSchema when used in TopicRecordNameStrategyWithSchema",
               cause := none, retriable := false, cached := false } := by
  simp [get_subject, h, SRCError.non_retryable_without_cause, SRCError.new]

/-- Witness for C10 at a concrete schema without a name. -/
theorem C10_record_name_reuses_message_witness :
    (⟨none, SchemaType.Avro, "sch", []⟩ : SuppliedSchema).name = none ∧
      get_subject (.RecordNameStrategyWithSchema ⟨none, SchemaType.Avro, "sch", []⟩) =
        .error { error := "name is mandatory in SuppliedSchema when used in TopicRecordNameStrategyWithSchema",
                 cause := none, retriable := false, cached := false } :=
  ⟨rfl, C10_record_name_reuses_message ⟨none, SchemaType.Avro, "sch", []⟩ rfl⟩

/-- A successful envelope parse with a supplied id keeps that id, takes the
schema type from the schemaType field and the schema text from the schema
field. -/
theorem schema_from_json_some_ok (json : Json) (i : Nat) (rs : RegisteredSchema)
    (h : schema_from_json json (some i) = .ok rs) :
    rs.id = i ∧ rs.schema_type = parse_schema_type json ∧
      (json.index "schema").as_str = some rs.schema := by
  simp only [schema_from_json] at h
  split at h
  · exact absurd h (by simp)
  · split at h
    · injection h with h2
      subst h2
      exact ⟨rfl, rfl, by assumption⟩
    · split at h
      · injection h with h2
        subst h2
        exact ⟨rfl, rfl, by assumption⟩
      · exact absurd h (by simp)

/-- With no supplied id and a numeric id field in range, the envelope parse
behaves as if the truncated response id had been supplied. -/
theorem schema_from_json_none_some (json : Json) (v : Nat)
    (hv : (json.index "id").as_u64 = some v) :
    schema_from_json json none = schema_from_json json (some (v % 2 ^ 32)) := by
  simp only [schema_from_json, hv]

/-- C4: error classification is fixed by failure kind. A response code
other than 200 yields a non retryable error whose exact message embeds the
observed code (the message splits around the rendered code); a failure to
obtain the response code, or a failed GET transfer, yields a retryable
error; a body that fails UTF-8 decoding or JSON parsing yields a non
retryable error. All registry calls funnel their responses through
to_json, so these cases cover every call. -/
theorem C4_error_classification (ext : Ext) :
    (∀ (easy : Easy2) (v : Nat), easy.response_code = .ok v → v ≠ 200 →
      to_json ext easy =
        .error { error := "Did not get a 200 response code but " ++ toString v ++ " instead",
                 cause := none, retriable := false, cached := false } ∧
        ∃ pre suf, "Did not get a 200 response code but " ++ toString v ++ " instead" =
          pre ++ toString v ++ suf) ∧
    (∀ (easy : Easy2) (e : String), easy.response_code = .error e →
      to_json ext easy =
        .error { error := "Encountered error getting http response", cause := some e,
                 retriable := true, cached := false }) ∧
    (∀ (url : String) (oid : Option Nat) (e : String), ext.performGet url = .error e →
      schema_from_url ext url oid =
        .error { error := "error performing get to schema registry", cause := some e,
                 retriable := true, cached := false }) ∧
    (∀ (easy : Easy2) (e : String), easy.response_code = .ok 200 →
      ext.utf8 easy.data = .error e →
      to_json ext easy =
        .error { error := "Invalid UTF-8 sequence", cause := some e, retriable := false,
                 cached := false }) ∧
    (∀ (easy : Easy2) (s e : String), easy.response_code = .ok 200 →
      ext.utf8 easy.data = .ok s → ext.parseJson s = .error e →
      to_json ext easy =
        .error { error := "Invalid json string", cause := some e, retriable := false,
                 cached := false }) := by
  refine ⟨fun easy v hv hne => ⟨?_, "Did not get a 200 response code but ", " instead", rfl⟩,
    fun easy e hv => ?_, fun url oid e hg => ?_, fun easy e hv hu => ?_,
    fun easy s e hv hu hp => ?_⟩
  · simp only [to_json, hv]
    rw [if_neg hne]
    rfl
  · simp only [to_json, hv]
    rfl
  · simp only [schema_from_url, hg]
    rfl
  · simp only [to_json, hv, hu]
    rfl
  · simp only [to_json, hv, hu, hp]
    rfl

/-- Witness for C4 on the non-200 branch at code 404. -/
theorem C4_error_classification_witness :
    ((⟨Except.ok 404, []⟩ : Easy2).response_code = Except.ok 404 ∧ (404 : Nat) ≠ 200) ∧
      to_json ⟨fun _ => Except.ok "", fun _ => Except.ok Json.null, fun _ => "",
          fun _ => Except.error "no get"⟩ ⟨Except.ok 404, []⟩ =
        .error { error := "Did not get a 200 response code but 404 instead",
                 cause := none, retriable := false, cached := false } := by
  refine ⟨⟨rfl, by decide⟩, ?_⟩
  have h := (C4_error_classification
    ⟨fun _ => Except.ok "", fun _ => Except.ok Json.null, fun _ => "",
      fun _ => Except.error "no get"⟩).1 ⟨Except.ok 404, []⟩ 404 rfl (by decide)
  exact h.1

/-- C5: envelope parsing maps the schemaType field with Avro as the
default, the schema field is mandatory and its absence is a non retryable
error, and the simulated lookup of schema id 7 with a PROTOBUF response and
no references produces the expected RegisteredSchema. -/
theorem C5_envelope_parsing (json : Json) (i : Nat) (other : String)
    (rs : RegisteredSchema) :
    ((json.index "schema").as_str = none →
      schema_from_json json (some i) =
        .error { error := "Could not get raw schema from response", cause := none,
                 retriable := false, cached := false }) ∧
    (schema_from_json json (some i) = .ok rs → json.index "schemaType" = Json.str "AVRO" →
      rs.schema_type = SchemaType.Avro) ∧
    (schema_from_json json (some i) = .ok rs → json.index "schemaType" = Json.str "PROTOBUF" →
      rs.schema_type = SchemaType.Protobuf) ∧
    (schema_from_json json (some i) = .ok rs → json.index "schemaType" = Json.str "JSON" →
      rs.schema_type = SchemaType.Json) ∧
    (schema_from_json json (some i) = .ok rs → json.index "schemaType" = Json.str other →
      other ≠ "AVRO" → other ≠ "PROTOBUF" → other ≠ "JSON" →
      rs.schema_type = SchemaType.Other other) ∧
    (schema_from_json json (some i) = .ok rs → json.index "schemaType" = Json.null →
      rs.schema_type = SchemaType.Avro) ∧
    (get_schema_by_id
        ⟨fun _ => Except.ok "body",
         fun _ => Except.ok (Json.obj
           [("id", Json.num 7), ("schema", Json.str "proto"),
            ("schemaType", Json.str "PROTOBUF")]),
         fun _ => "", fun _ => Except.ok ⟨Except.ok 200, []⟩⟩ 7 "http://sr" =
      .ok { id := 7, schema_type := SchemaType.Protobuf, schema := "proto",
            references := [] }) := by
  refine ⟨fun h => ?_, fun hok hst => ?_, fun hok hst => ?_, fun hok hst => ?_,
    fun hok hst h1 h2 h3 => ?_, fun hok hst => ?_, by rfl⟩
  · simp only [schema_from_json, h]
    rfl
  · rw [(schema_from_json_some_ok json i rs hok).2.1]
    simp [parse_schema_type, hst, Json.as_str]
  · rw [(schema_from_json_some_ok json i rs hok).2.1]
    simp [parse_schema_type, hst, Json.as_str]
  · rw [(schema_from_json_some_ok json i rs hok).2.1]
    simp [parse_schema_type, hst, Json.as_str]
  · rw [(schema_from_json_some_ok json i rs hok).2.1]
    simp only [parse_schema_type, hst, Json.as_str]
  · rw [(schema_from_json_some_ok json i rs hok).2.1]
    simp [parse_schema_type, hst, Json.as_str]

/-- Witness for C5 on the default branch: an envelope without a schemaType
field parses with schema type Avro. -/
theorem C5_envelope_parsing_witness :
    schema_from_json (Json.obj [("schema", Json.str "s")]) (some 3) =
      .ok { id := 3, schema_type := SchemaType.Avro, schema := "s", references := [] } ∧
    ({ id := 3, schema_type := SchemaType.Avro, schema := "s",
       references := [] } : RegisteredSchema).schema_type = SchemaType.Avro := by
  refine ⟨by rfl, ?_⟩
  exact (C5_envelope_parsing (Json.obj [("schema", Json.str "s")]) 3 ""
    ⟨3, SchemaType.Avro, "s", []⟩).2.2.2.2.2.1 (by rfl) rfl

/-- C3 counterexample: a fetch-by-id of id 7 whose response body carries
id 9 still returns a schema with id 7 - the response id field is ignored
whenever an id was supplied, contrary to the claim that the body id wins. -/
theorem C3_counterexample :
    get_schema_by_id
        ⟨fun _ => Except.ok "b",
         fun _ => Except.ok (Json.obj [("id", Json.num 9), ("schema", Json.str "s")]),
         fun _ => "", fun _ => Except.ok ⟨Except.ok 200, []⟩⟩ 7 "http://sr" =
      .ok { id := 7, schema_type := SchemaType.Avro, schema := "s", references := [] } ∧
    ((Json.obj [("id", Json.num 9), ("schema", Json.str "s")]).index "id").as_u64 =
      some 9 ∧
    (7 : Nat) ≠ 9 := by
  refine ⟨by rfl, by rfl, by decide⟩

/-- C3 amended: get_schema_by_id passes the requested id down, and
schema_from_url with a supplied id uses it unconditionally, never reading
the response id; the response id is parsed only when no id is supplied (the
by-subject and reference paths), where its absence is a non retryable
error and its presence gives the truncated response id. -/
theorem C3_id_precedence (ext : Ext) (id : Nat) (base : String) (json : Json)
    (rs : RegisteredSchema) :
    (get_schema_by_id ext id base = .ok rs → rs.id = id) ∧
    (schema_from_json json (some id) = .ok rs → rs.id = id) ∧
    ((json.index "id").as_u64 = none →
      schema_from_json json none =
        .error { error := "Could not get id from response", cause := none,
                 retriable := false, cached := false }) ∧
    (∀ v, (json.index "id").as_u64 = some v → schema_from_json json none = .ok rs →
      rs.id = v % 2 ^ 32) := by
  refine ⟨fun h => ?_, fun h => (schema_from_json_some_ok json id rs h).1,
    fun h => ?_, fun v hv hok => ?_⟩
  · simp only [get_schema_by_id, schema_from_url] at h
    split at h
    · exact absurd h (by simp)
    · split at h
      · exact absurd h (by simp)
      · exact (schema_from_json_some_ok _ id rs h).1
  · simp only [schema_from_json, h]
    rfl
  · rw [schema_from_json_none_some json v hv] at hok
    exact (schema_from_json_some_ok json (v % 2 ^ 32) rs hok).1

/-- Witness for the amended C3: the run of the counterexample, through the
first conjunct, yields the requested id 7. -/
theorem C3_id_precedence_witness :
    ({ id := 7, schema_type := SchemaType.Avro, schema := "s",
       references := [] } : RegisteredSchema).id = 7 :=
  (C3_id_precedence
    ⟨fun _ => Except.ok "b",
     fun _ => Except.ok (Json.obj [("id", Json.num 9), ("schema", Json.str "s")]),
     fun _ => "", fun _ => Except.ok ⟨Except.ok 200, []⟩⟩ 7 "http://sr" Json.null
    ⟨7, SchemaType.Avro, "s", []⟩).1 (by rfl)

/-- post_and_get_id always leaves the world with exactly its own request
appended to the log, whatever the outcome. -/
theorem post_and_get_id_world (ext : Ext) (w : World) (url body : String) :
    (post_and_get_id ext w url body).2 =
      { oracle := w.oracle, log := w.log ++ [(url, body)] } := by
  cases ho : w.oracle w.log url body with
  | error e => simp [post_and_get_id, perform_post, ho]
  | ok easy =>
      cases ht : to_json ext easy with
      | error e2 => simp [post_and_get_id, perform_post, ho, ht]
      | ok j =>
          cases hi : (j.index "id").as_i64 with
          | none => simp [post_and_get_id, perform_post, ho, ht, hi]
          | some v => simp [post_and_get_id, perform_post, ho, ht, hi]

/-- post_and_get_version always leaves the world with exactly its own
request appended to the log, whatever the outcome. -/
theorem post_and_get_version_world (ext : Ext) (w : World) (url body : String) :
    (post_and_get_version ext w url body).2 =
      { oracle := w.oracle, log := w.log ++ [(url, body)] } := by
  cases ho : w.oracle w.log url body with
  | error e => simp [post_and_get_version, perform_post, ho]
  | ok easy =>
      cases ht : to_json ext easy with
      | error e2 => simp [post_and_get_version, perform_post, ho, ht]
      | ok j =>
          cases hi : (j.index "version").as_i64 with
          | none => simp [post_and_get_version, perform_post, ho, ht, hi]
          | some v => simp [post_and_get_version, perform_post, ho, ht, hi]

/-- Equation form of post_and_get_id_world, convenient for rewriting. -/
theorem post_and_get_id_world2 (ext : Ext) (w : World) (url body : String)
    (res : Except SRCError Nat) (w' : World)
    (h : post_and_get_id ext w url body = (res, w')) :
    w' = { oracle := w.oracle, log := w.log ++ [(url, body)] } := by
  have h2 := post_and_get_id_world ext w url body
  rw [h] at h2
  exact h2

/-- Equation form of post_and_get_version_world, convenient for rewriting. -/
theorem post_and_get_version_world2 (ext : Ext) (w : World) (url body : String)
    (res : Except SRCError Nat) (w' : World)
    (h : post_and_get_version ext w url body = (res, w')) :
    w' = { oracle := w.oracle, log := w.log ++ [(url, body)] } := by
  have h2 := post_and_get_version_world ext w url body
  rw [h] at h2
  exact h2

/-- Every SuppliedReference has positive size, for the induction below. -/
theorem SuppliedReference.sizeOf_pos (r : SuppliedReference) : 1 ≤ sizeOf r := by
  cases r with
  | mk n s sch rs =>
      simp only [SuppliedReference.mk.sizeOf_spec]
      omega

/-- Log shape of successful registrations, proved for references and
reference lists together by strong induction on size. -/
theorem post_ok_log_aux (ext : Ext) (base ty : String) : ∀ n : Nat,
    (∀ r : SuppliedReference, sizeOf r ≤ n → ∀ w rr w',
      post_reference ext base ty r w = (.ok rr, w') →
      ∃ mid body,
        w'.log = w.log ++ (mid ++
          [(base ++ "/subjects/" ++ r.subject ++ "/versions", body),
           (base ++ "/subjects/" ++ r.subject, body)]) ∧
        List.map Prod.fst (mid ++
          [(base ++ "/subjects/" ++ r.subject ++ "/versions", body),
           (base ++ "/subjects/" ++ r.subject, body)]) = postOrderUrls base r ∧
        rr.name = r.name ∧ rr.subject = r.subject) ∧
    (∀ rs : List SuppliedReference, sizeOf rs ≤ n → ∀ w rrs w',
      post_reference_list ext base ty rs w = (.ok rrs, w') →
      ∃ extL, w'.log = w.log ++ extL ∧
        List.map Prod.fst extL = postOrderUrlsList base rs) := by
  intro n
  induction n with
  | zero =>
      refine ⟨fun r hr => ?_, fun rs hrs => ?_⟩
      · have := SuppliedReference.sizeOf_pos r
        omega
      · cases rs with
        | nil =>
            intro w rrs w' h
            simp only [post_reference_list] at h
            injection h with h1 h2
            subst h2
            exact ⟨[], by simp, by simp [postOrderUrlsList]⟩
        | cons r rest =>
            have := SuppliedReference.sizeOf_pos r
            simp only [List.cons.sizeOf_spec] at hrs
            omega
  | succ n ih =>
      refine ⟨fun r hr w rr w' h => ?_, fun rs hrs w rrs w' h => ?_⟩
      · have hrefs : sizeOf r.references ≤ n := by
          have := SuppliedReference.sizeOf_references_lt r
          omega
        simp only [post_reference] at h
        split at h
        · exact absurd h (by simp)
        · rename_i references w2 heq
          split at h
          · exact absurd h (by simp)
          · rename_i idv w3 heq2
            split at h
            · exact absurd h (by simp)
            · rename_i version w4 heq3
              injection h with h1 h2
              injection h1 with h1
              subst h1
              subst h2
              obtain ⟨extL, hlog, hmap⟩ :=
                ih.2 r.references hrefs w references w2 heq
              have h3 : w3 = { oracle := w2.oracle, log := w2.log ++
                  [(base ++ "/subjects/" ++ r.subject ++ "/versions",
                    get_body ext ty r.schema references)] } := by
                rw [show w3 = (post_and_get_id ext w2
                  (base ++ "/subjects/" ++ r.subject ++ "/versions")
                  (get_body ext ty r.schema references)).2 from by rw [heq2]]
                exact post_and_get_id_world ext w2 _ _
              have h4 : w4.log = w3.log ++
                  [(base ++ "/subjects/" ++ r.subject,
                    get_body ext ty r.schema references)] := by
                rw [show w4 = (post_and_get_version ext w3
                  (base ++ "/subjects/" ++ r.subject)
                  (get_body ext ty r.schema references)).2 from by rw [heq3]]
                rw [post_and_get_version_world ext w3 _ _]
              refine ⟨extL, get_body ext ty r.schema references, ?_, ?_, rfl, rfl⟩
              · rw [h4, h3]
                simp [hlog]
              · simp only [List.map_append, List.map_cons, List.map_nil, hmap,
                  postOrderUrls]
      · cases rs with
        | nil =>
            simp only [post_reference_list] at h
            injection h with h1 h2
            subst h2
            exact ⟨[], by simp, by simp [postOrderUrlsList]⟩
        | cons r rest =>
            simp only [List.cons.sizeOf_spec] at hrs
            simp only [post_reference_list] at h
            split at h
            · exact absurd h (by simp)
            · rename_i rr2 w2 heq1
              split at h
              · exact absurd h (by simp)
              · rename_i rrs2 w3 heq2
                injection h with h1 h2
                subst h2
                obtain ⟨mid, body, hlog1, hmap1, _, _⟩ :=
                  ih.1 r (by omega) w rr2 w2 heq1
                obtain ⟨extL2, hlog2, hmap2⟩ :=
                  ih.2 rest (by omega) w2 rrs2 w3 heq2
                refine ⟨(mid ++
                  [(base ++ "/subjects/" ++ r.subject ++ "/versions", body),
                   (base ++ "/subjects/" ++ r.subject, body)]) ++ extL2, ?_, ?_⟩
                · rw [hlog2, hlog1]
                  simp
                · simp only [List.map_append, hmap1, hmap2, postOrderUrlsList]

/-- A successful post_reference extends the log by the logs of its nested
references followed by its own two requests, which share one body and hit
the versions URL and then the bare subject URL; the resulting reference
keeps the supplied name and subject. -/
theorem post_reference_ok_log (ext : Ext) (base ty : String) (r : SuppliedReference)
    (w : World) :
    ∀ rr w', post_reference ext base ty r w = (.ok rr, w') →
      ∃ mid body,
        w'.log = w.log ++ (mid ++
          [(base ++ "/subjects/" ++ r.subject ++ "/versions", body),
           (base ++ "/subjects/" ++ r.subject, body)]) ∧
        List.map Prod.fst (mid ++
          [(base ++ "/subjects/" ++ r.subject ++ "/versions", body),
           (base ++ "/subjects/" ++ r.subject, body)]) = postOrderUrls base r ∧
        rr.name = r.name ∧ rr.subject = r.subject :=
  (post_ok_log_aux ext base ty (sizeOf r)).1 r le_rfl w

/-- A successful post_reference_list extends the log by the concatenation
of the per-reference logs in list order; the URL sequence hit is exactly
the post-order sequence of the list. -/
theorem post_reference_list_ok_log (ext : Ext) (base ty : String)
    (rs : List SuppliedReference) (w : World) :
    ∀ rrs w', post_reference_list ext base ty rs w = (.ok rrs, w') →
      ∃ extL, w'.log = w.log ++ extL ∧
        List.map Prod.fst extL = postOrderUrlsList base rs :=
  (post_ok_log_aux ext base ty (sizeOf rs)).2 rs le_rfl w

/-- C8: reference registration is recursive post-order and two-phase. A
successful post_reference hits exactly the post-order URL sequence of the
reference tree (each nested reference before the reference itself), ending
with two POSTs of one shared body, first to the versions URL of the
subject (for the id) and then to the bare subject URL (for the version);
it succeeds only when both POSTs succeed, returning the supplied name and
subject. A successful post_schema first hits the post-order sequence of
all its references and then its own versions URL. Failures are single
errors by the Except result type. -/
theorem C8_recursive_post_order (ext : Ext) (base ty subject : String)
    (r : SuppliedReference) (schema : SuppliedSchema) (w : World) :
    (∀ rr w', post_reference ext base ty r w = (.ok rr, w') →
      List.map Prod.fst w'.log = List.map Prod.fst w.log ++ postOrderUrls base r ∧
      (∃ mid body, w'.log = w.log ++ (mid ++
        [(base ++ "/subjects/" ++ r.subject ++ "/versions", body),
         (base ++ "/subjects/" ++ r.subject, body)])) ∧
      rr.name = r.name ∧ rr.subject = r.subject) ∧
    (∀ rs w', post_schema ext base subject schema w = (.ok rs, w') →
      List.map Prod.fst w'.log = List.map Prod.fst w.log ++
        postOrderUrlsList base schema.references ++
        [base ++ "/subjects/" ++ subject ++ "/versions"] ∧
      rs.schema_type = schema.schema_type ∧ rs.schema = schema.schema) := by
  constructor
  · intro rr w' h
    obtain ⟨mid, body, hlog, hmap, hn, hs⟩ :=
      post_reference_ok_log ext base ty r w rr w' h
    refine ⟨?_, ⟨mid, body, hlog⟩, hn, hs⟩
    rw [hlog, List.map_append, hmap]
  · intro rs w' h
    simp only [post_schema] at h
    split at h
    · exact absurd h (by simp)
    · rename_i references w2 heq
      split at h
      · exact absurd h (by simp)
      · rename_i idv w3 heq2
        injection h with h1 h2
        injection h1 with h1
        subst h1
        subst h2
        obtain ⟨extL, hlog, hmap⟩ :=
          post_reference_list_ok_log ext base _ schema.references w references w2 heq
        have h3 := post_and_get_id_world2 ext w2 _ _ _ _ heq2
        refine ⟨?_, rfl, rfl⟩
        rw [h3]
        simp [hlog, hmap, List.map_append]

/-- Concrete external functions for the C8 witness run: every POST gets a
200 response whose JSON carries id 1 and version 3, and bodies render to
the string B. -/
def c8_ext : Ext :=
  ⟨fun _ => Except.ok "b",
   fun _ => Except.ok (Json.obj [("id", Json.num 1), ("version", Json.num 3)]),
   fun _ => "B", fun _ => Except.error "no get"⟩

/-- Oracle for the C8 witness run. -/
def c8_oracle : List (String × String) → String → String → Except String Easy2 :=
  fun _ _ _ => Except.ok ⟨Except.ok 200, []⟩

/-- Two-level reference tree for the C8 witness run. -/
def c8_ref : SuppliedReference := .mk "r1" "s1" "R1" [.mk "r2" "s2" "R2" []]

/-- Request log of the C8 witness run: the nested reference s2 is posted
(id request, then version request) before its parent s1. -/
def c8_log : List (String × String) :=
  [("http://sr/subjects/s2/versions", "B"), ("http://sr/subjects/s2", "B"),
   ("http://sr/subjects/s1/versions", "B"), ("http://sr/subjects/s1", "B")]

/-- Witness for C8: registering a reference with one nested reference
issues exactly the post-order request sequence. -/
theorem C8_recursive_post_order_witness :
    post_reference c8_ext "http://sr" "AVRO" c8_ref ⟨c8_oracle, []⟩ =
      (Except.ok ⟨"r1", "s1", 3⟩, ⟨c8_oracle, c8_log⟩) ∧
    List.map Prod.fst c8_log = postOrderUrls "http://sr" c8_ref := by
  have hrun : post_reference c8_ext "http://sr" "AVRO" c8_ref ⟨c8_oracle, []⟩ =
      (Except.ok ⟨"r1", "s1", 3⟩, ⟨c8_oracle, c8_log⟩) := by
    simp [post_reference, post_reference_list, post_and_get_id, post_and_get_version,
      perform_post, to_json, get_body, c8_ext, c8_oracle, c8_ref, c8_log,
      SuppliedReference.references, SuppliedReference.subject, SuppliedReference.schema,
      SuppliedReference.name, Json.index, Json.as_i64, i64_as_u32]
  refine ⟨hrun, ?_⟩
  have h := (C8_recursive_post_order c8_ext "http://sr" "AVRO" "subj" c8_ref
    ⟨some "n", SchemaType.Avro, "S", []⟩ ⟨c8_oracle, []⟩).1 ⟨"r1", "s1", 3⟩
    ⟨c8_oracle, c8_log⟩ hrun
  simpa using h.1

/-- C9: into_cache sets cached and keeps the message, cause and retriable
fields; clone is the identity on the modelled fields, keeping the existing
cached value; a freshly built error starts uncached, so building with new
and caching is field-equal to a manual construction differing only in
cached. -/
theorem C9_error_cache_clone (e : SRCError) (msg : String) :
    e.into_cache.cached = true ∧
    e.into_cache.error = e.error ∧
    e.into_cache.cause = e.cause ∧
    e.into_cache.retriable = e.retriable ∧
    e.clone = e ∧
    (SRCError.new msg none false).cached = false ∧
    (SRCError.new msg none false).into_cache =
      { error := msg, cause := none, retriable := false, cached := true } := by
  refine ⟨rfl, rfl, rfl, rfl, ?_, rfl, rfl⟩
  cases e with
  | mk er cz r c => cases cz <;> rfl

end SchemaRegistry
